import Mathlib

/-!
Youtube_frontend: the page handlers as state transformers

A shallow embedding of the event handlers of the three React pages
`src/pages/AdminLogin.js`, `src/pages/DownloadByUrl.js` and
`src/pages/DownloadPage.js`.

* A page's `useState` cells are the fields of a structure; a setter call is a
  record update.
* What a handler does to the outside world (alerts, navigation, HTTP requests,
  DOM calls, console output) is recorded, in program order, in a list of
  `Effect`s.
* An `async` handler has a single `await`.  The value delivered at that point
  is a parameter of the handler (`Settle`): the promise resolves with a
  response or rejects.  The state in force while the request is in flight is
  kept in `Run.pending`.
* `setTimeout` callbacks are kept in `Run.timers`, as a delay with the state
  update the callback performs.
-/

namespace YoutubeFrontend

/-! ## JavaScript values -/

/-- The numbers the handlers can produce or meet: integers, `NaN` and
`Infinity` (both arise from `Math.round (x / 0)`). -/
inductive JsNumber where
  | int (n : Int)
  | nan
  | posInf
  deriving DecidableEq, Repr

/-- Primitive values. -/
inductive JsPrim where
  | undefined
  | null
  | bool (b : Bool)
  | num (n : JsNumber)
  | str (s : String)
  deriving DecidableEq, Repr

/-- An object with primitive fields, such as a preview or a search result. -/
abbrev JsObject := List (String × JsPrim)

/-- The values a response body or a state cell can hold: a primitive, a binary
`Blob` (its bytes), an object, or an array of objects. -/
inductive JsValue where
  | prim (p : JsPrim)
  | blob (bytes : List Nat)
  | obj (o : JsObject)
  | arr (items : List JsObject)
  deriving DecidableEq, Repr

/-- Truthiness of a number: `0` and `NaN` are falsy. -/
def JsNumber.truthy : JsNumber → Bool
  | .int n => !decide (n = 0)
  | .nan => false
  | .posInf => true

/-- Truthiness of a primitive: `undefined`, `null`, `false`, `0`, `NaN` and
the empty string are falsy. -/
def JsPrim.truthy : JsPrim → Bool
  | .undefined => false
  | .null => false
  | .bool b => b
  | .num n => n.truthy
  | .str s => !decide (s = "")

/-- Truthiness of a value: every object, array and `Blob` is truthy. -/
def JsValue.truthy : JsValue → Bool
  | .prim p => p.truthy
  | .blob _ => true
  | .obj _ => true
  | .arr _ => true

/-- String conversion of a number, as in a template literal, for integers of
magnitude below `10 ^ 21` (from there on JavaScript prints an exponent). -/
def JsNumber.toStr : JsNumber → String
  | .int n => toString n
  | .nan => "NaN"
  | .posInf => "Infinity"

/-- String conversion of a primitive, as in a template literal. -/
def JsPrim.toStr : JsPrim → String
  | .undefined => "undefined"
  | .null => "null"
  | .bool true => "true"
  | .bool false => "false"
  | .num n => n.toStr
  | .str s => s

/-- String conversion of a value, as in a template literal. -/
def JsValue.toStr : JsValue → String
  | .prim p => p.toStr
  | .blob _ => "[object Blob]"
  | .obj _ => "[object Object]"
  | .arr items => ",".intercalate (items.map fun _ => "[object Object]")

/-- Property read `o.key` on an object: `undefined` when the key is absent. -/
def JsObject.get (o : JsObject) (key : String) : JsPrim :=
  (o.lookup key).getD .undefined

/-- Property read `v.key` on a value (also `v?.key`, which differs only on
`null` and `undefined`, where it yields `undefined`): only objects carry the
data properties the pages read. -/
def JsValue.get (v : JsValue) (key : String) : JsPrim :=
  match v with
  | .obj o => o.get key
  | _ => .undefined

/-- The bytes of `new Blob([v])`: a `Blob` part is taken as it is, any other
part is converted to a string and encoded as UTF-8. -/
def JsValue.blobBytes : JsValue → List Nat
  | .blob bytes => bytes
  | v => v.toStr.toUTF8.toList.map (·.toNat)

/-- The value `Math.round (a / b)` for a dividend `a` and a divisor `b` that
is a byte count or `undefined` (`none`).  The quotient is taken exactly and
rounded half up.  The code computes on IEEE doubles; the two agree for the
dividend `loaded * 100` with `loaded < 2 ^ 46` against the divisor 1, and
against a total below `2 ^ 46` with `loaded` at most that total (the product
is below `2 ^ 53`, and the quotient is further from every half-integer than
half a unit in the last place).  Outside these bounds the double result can
differ, and nothing is stated about progress values there. -/
def roundDiv (a : Nat) (b : Option Nat) : JsNumber :=
  match b with
  | none => .nan
  | some 0 => if a = 0 then .nan else .posInf
  | some (d + 1) => .int (((2 * a + (d + 1)) / (2 * (d + 1)) : Nat) : Int)

/-! ## Effects and requests -/

/-- The configuration object handed to the HTTP client. -/
structure Request where
  method : String
  url : String
  params : List (String × JsValue)
  responseType : String
  deriving DecidableEq, Repr

/-- What the awaited HTTP call delivers: a response (status and body) or a
rejection. -/
inductive Settle where
  | resolved (status : Nat) (data : JsValue)
  | rejected
  deriving DecidableEq, Repr

/-- What the network does with a request: an HTTP response or a transport
failure. -/
inductive HttpOutcome where
  | response (status : Nat) (data : JsValue)
  | networkError
  deriving DecidableEq, Repr

/-- Modelled from the spec: the HTTP client library is not part of the
sources.  With no `validateStatus` option (no call in the pages passes one)
the client resolves the promise for a status from 200 to 299 and rejects it
for any other status and for a transport failure (§4.4: "non-2xx, per the
underlying HTTP client's default success criteria"). -/
def axiosSettle : HttpOutcome → Settle
  | .response status data =>
    if 200 ≤ status ∧ status < 300 then .resolved status data else .rejected
  | .networkError => .rejected

/-- An observable action of a handler.  An object URL is identified with the
bytes of the `Blob` it was created for. -/
inductive Effect where
  | preventDefault
  | consoleLog (label : String)
  | consoleError (label : String)
  | alert (message : String)
  | navigate (route : String)
  | request (r : Request)
  | createObjectURL (blob : List Nat)
  | appendChild
  | click (href : List Nat) (download : String)
  | remove
  | revokeObjectURL (blob : List Nat)
  deriving DecidableEq, Repr

/-- The HTTP requests among the effects. -/
def requestsOf : List Effect → List Request
  | [] => []
  | .request r :: rest => r :: requestsOf rest
  | _ :: rest => requestsOf rest

/-- The alert texts among the effects. -/
def alertsOf : List Effect → List String
  | [] => []
  | .alert m :: rest => m :: alertsOf rest
  | _ :: rest => alertsOf rest

/-- The navigation targets among the effects. -/
def navigationsOf : List Effect → List String
  | [] => []
  | .navigate p :: rest => p :: navigationsOf rest
  | _ :: rest => navigationsOf rest

/-- The saves triggered among the effects: a click on the download anchor, as
the file content behind its `href` and the file name in its `download`
attribute. -/
def savesOf : List Effect → List (List Nat × String)
  | [] => []
  | .click href name :: rest => (href, name) :: savesOf rest
  | _ :: rest => savesOf rest

/-- One execution of a handler. -/
structure Run (σ : Type) where
  /-- The state while the request is in flight; `none` when the handler
  returns without issuing one. -/
  pending : Option σ
  /-- The state when the handler has run to its end. -/
  final : σ
  /-- The effects, in program order. -/
  effects : List Effect
  /-- The callbacks handed to `setTimeout`: delay in milliseconds and the
  state update of the callback. -/
  timers : List (Nat × (σ → σ))

/-- A progress event of the HTTP client: `total` is `none` when the event
carries no total (`undefined`). -/
structure ProgressEvent where
  loaded : Nat
  total : Option Nat
  lengthComputable : Bool
  deriving DecidableEq, Repr

/-! ## `AdminLogin.js` -/

namespace AdminLogin

/-- The `useState` cells of the page. -/
structure State where
  email : String
  password : String
  deriving DecidableEq, Repr

/-- The state on mount. -/
def State.init : State := { email := "", password := "" }

/-- `handleSubmit`: the state after the handler and its effects. -/
def handleSubmit (s : State) : State × List Effect :=
  (s,
    [Effect.preventDefault, Effect.consoleLog "Admin Login:"] ++
      (if s.email = "admin@example.com" ∧ s.password = "admin123" then
        [Effect.navigate "/AdminDashboard"]
      else
        [Effect.alert "Invalid credentials!"]))

end AdminLogin

/-! ## `DownloadByUrl.js` -/

namespace DownloadByUrl

/-- The `useState` cells of the page. -/
structure State where
  searchQuery : String
  video : JsValue
  loading : Bool
  progress : JsNumber
  error : String
  playingVideo : JsPrim
  showPlayModal : Bool
  selectedFormat : String
  deriving DecidableEq, Repr

/-- The state on mount. -/
def State.init : State :=
  { searchQuery := "", video := .prim .null, loading := false, progress := .int 0,
    error := "", playingVideo := .null, showPlayModal := false, selectedFormat := "mp4" }

/-- The request of `handleFetchVideo`. -/
def previewRequest (backendUrl : JsPrim) (searchQuery : String) : Request :=
  { method := "GET",
    url := backendUrl.toStr ++ "/preview",
    params := [("url", .prim (.str searchQuery))],
    responseType := "json" }

/-- `handleFetchVideo`, for a state `s` and the outcome `o` of the awaited
request. -/
def handleFetchVideo (backendUrl : JsPrim) (s : State) (o : Settle) : Run State :=
  if s.searchQuery = "" then
    { pending := none, final := s, effects := [.alert "Please enter a YouTube URL!"],
      timers := [] }
  else
    let s1 : State := { s with loading := true, error := "", progress := .int 0 }
    let failed : State × List Effect :=
      ({ s1 with error := "Error fetching video info. Ensure the URL is correct." },
        [.consoleError "Preview Fetch Error:"])
    let body : State × List Effect :=
      match o with
      | .resolved status data =>
        if status ≠ 200 ∨ data.truthy = false then failed
        else ({ s1 with video := data }, [])
      | .rejected => failed
    { pending := some s1,
      final := { body.1 with loading := false },
      effects := .request (previewRequest backendUrl s.searchQuery) :: body.2,
      timers := [] }

/-- The `onDownloadProgress` callback: the value passed to `setProgress`. -/
def onDownloadProgress (e : ProgressEvent) : JsNumber :=
  roundDiv (e.loaded * 100)
    (match e.total with
     | some (t + 1) => some (t + 1)
     | _ => some 1)

/-- The request of `handleDownload`. -/
def downloadRequest (backendUrl : JsPrim) (videoId : JsPrim) (selectedFormat : String) :
    Request :=
  { method := "GET",
    url := backendUrl.toStr ++ "/download",
    params := [("videoId", .prim videoId), ("format", .prim (.str selectedFormat))],
    responseType := "blob" }

/-- The file name of the download link: `video?.title || "video"`, a dot, and
the selected format. -/
def downloadName (video : JsValue) (selectedFormat : String) : String :=
  (if (video.get "title").truthy then (video.get "title").toStr else "video") ++ "." ++
    selectedFormat

/-- The callback handed to `setTimeout` by `handleDownload`. -/
def downloadReset (s : State) : State :=
  { s with progress := .int 0, loading := false }

/-- `handleDownload (videoId, format)`, for a state `s`, the progress events
received while the request is in flight, and the outcome `o` of the awaited
request. -/
def handleDownload (backendUrl : JsPrim) (s : State) (videoId _format : JsPrim)
    (events : List ProgressEvent) (o : Settle) : Run State :=
  if videoId.truthy = false then
    { pending := none, final := { s with error := "Invalid video ID." }, effects := [],
      timers := [] }
  else
    let s1 : State := { s with loading := true, progress := .int 0 }
    let s2 : State :=
      events.foldl (fun st e => { st with progress := onDownloadProgress e }) s1
    let failed : State × List Effect :=
      ({ s2 with error := "Error downloading video. Ensure the backend is working." },
        [.consoleError "Download Error:"])
    let body : State × List Effect :=
      match o with
      | .resolved status data =>
        if status ≠ 200 then failed
        else if data.truthy = false then failed
        else
          (s2,
            [.createObjectURL data.blobBytes,
             .appendChild,
             .click data.blobBytes (downloadName s.video s.selectedFormat),
             .remove,
             .revokeObjectURL data.blobBytes])
      | .rejected => failed
    { pending := some s1,
      final := body.1,
      effects := .request (downloadRequest backendUrl videoId s.selectedFormat) :: body.2,
      timers := [(1000, downloadReset)] }

/-- The click handler of the Play button (shown when `video` is truthy). -/
def playClick (s : State) : State × List Effect :=
  ({ s with playingVideo := s.video.get "videoId", showPlayModal := true }, [])

/-- The click handler of the modal's close control. -/
def closeClick (s : State) : State × List Effect :=
  ({ s with showPlayModal := false }, [])

/-- The `src` of the player frame: rendered only while the modal is shown. -/
def embedSrc (s : State) : Option String :=
  if s.showPlayModal then some ("https://www.youtube.com/embed/" ++ s.playingVideo.toStr)
  else none

end DownloadByUrl

/-! ## `DownloadPage.js` -/

namespace DownloadPage

/-- The `useState` cells of the page. -/
structure State where
  query : String
  videos : JsValue
  loading : Bool
  progress : JsNumber
  error : String
  playingVideo : JsPrim
  showPlayModal : Bool
  selectedFormat : String
  deriving DecidableEq, Repr

/-- The state on mount. -/
def State.init : State :=
  { query := "", videos := .arr [], loading := false, progress := .int 0,
    error := "", playingVideo := .null, showPlayModal := false, selectedFormat := "mp4" }

/-- The request of `handleSearch`. -/
def searchRequest (backendUrl : JsPrim) (query : String) : Request :=
  { method := "GET",
    url := backendUrl.toStr ++ "/api/search",
    params := [("query", .prim (.str query))],
    responseType := "json" }

/-- `handleSearch`, for a state `s` and the outcome `o` of the awaited
request. -/
def handleSearch (backendUrl : JsPrim) (s : State) (o : Settle) : Run State :=
  if s.query = "" then
    { pending := none, final := s, effects := [.alert "Please enter a search term!"],
      timers := [] }
  else
    let s1 : State := { s with loading := true }
    let body : State × List Effect :=
      match o with
      | .resolved _ data => ({ s1 with videos := data, error := "" }, [])
      | .rejected =>
        ({ s1 with error := "Failed to fetch videos. Try again!" },
          [.consoleError "Search Error:"])
    { pending := some s1,
      final := { body.1 with loading := false },
      effects := .request (searchRequest backendUrl s.query) :: body.2,
      timers := [] }

/-- The `onDownloadProgress` callback: the value passed to `setProgress`. -/
def onDownloadProgress (e : ProgressEvent) : JsNumber :=
  if e.lengthComputable then roundDiv (e.loaded * 100) e.total
  else .int (-1)

/-- The request of `handleDownload`. -/
def downloadRequest (backendUrl : JsPrim) (video : JsObject) (selectedFormat : String) :
    Request :=
  { method := "GET",
    url := backendUrl.toStr ++ "/download",
    params :=
      [("videoId", .prim (video.get "videoId")), ("format", .prim (.str selectedFormat)),
       ("quality", .prim (.str "720p"))],
    responseType := "blob" }

/-- The file name of the download link: the title, a dot, and the selected
format. -/
def downloadName (video : JsObject) (selectedFormat : String) : String :=
  (video.get "title").toStr ++ "." ++ selectedFormat

/-- The callback handed to `setTimeout` by `handleDownload`. -/
def downloadReset (s : State) : State :=
  { s with progress := .int 100, loading := false }

/-- `handleDownload (video)`, for a state `s`, the result card `video`, the
progress events received while the request is in flight, and the outcome `o`
of the awaited request. -/
def handleDownload (backendUrl : JsPrim) (s : State) (video : JsObject)
    (events : List ProgressEvent) (o : Settle) : Run State :=
  let s1 : State := { s with loading := true, progress := .int 0 }
  let s2 : State :=
    events.foldl (fun st e => { st with progress := onDownloadProgress e }) s1
  let body : State × List Effect :=
    match o with
    | .resolved _ data =>
      (s2,
        [.consoleLog "✅ Download Complete!",
         .createObjectURL data.blobBytes,
         .appendChild,
         .click data.blobBytes (downloadName video s.selectedFormat),
         .remove])
    | .rejected =>
      ({ s2 with error := "Failed to download video." },
        [.consoleError "❌ Download Error:"])
  { pending := some s1,
    final := body.1,
    effects :=
      .consoleLog "📥 Downloading:" ::
        .request (downloadRequest backendUrl video s.selectedFormat) :: body.2,
    timers := [(500, downloadReset)] }

/-- The click handler of a card's Play button. -/
def playClick (s : State) (video : JsObject) : State × List Effect :=
  ({ s with playingVideo := video.get "videoId", showPlayModal := true }, [])

/-- The click handler of the modal's close control. -/
def closeClick (s : State) : State × List Effect :=
  ({ s with showPlayModal := false }, [])

/-- The `src` of the player frame: rendered only while the modal is shown. -/
def embedSrc (s : State) : Option String :=
  if s.showPlayModal then some ("https://www.youtube.com/embed/" ++ s.playingVideo.toStr)
  else none

end DownloadPage

/-! ## Shared lemmas -/

theorem JsPrim.truthy_str (t : String) : (JsPrim.str t).truthy = true ↔ t ≠ "" := by
  simp [JsPrim.truthy]

/-- Rounding a percentage of a part of a positive total stays within 0 to 100. -/
theorem roundDiv_percent_le (loaded d : Nat) (h : loaded ≤ d + 1) :
    ∃ n : Int, roundDiv (loaded * 100) (some (d + 1)) = .int n ∧ 0 ≤ n ∧ n ≤ 100 := by
  refine ⟨_, rfl, Int.ofNat_nonneg _, ?_⟩
  have hlt : (2 * (loaded * 100) + (d + 1)) / (2 * (d + 1)) < 101 :=
    Nat.div_lt_of_lt_mul (by omega)
  have hle : (2 * (loaded * 100) + (d + 1)) / (2 * (d + 1)) ≤ 100 := by omega
  exact_mod_cast hle

/-- Against the divisor 1 the rounded quotient is the dividend. -/
theorem roundDiv_one (a : Nat) : roundDiv a (some 1) = .int a := by
  have h : (2 * a + (0 + 1)) / (2 * (0 + 1)) = a := by omega
  show JsNumber.int (((2 * a + (0 + 1)) / (2 * (0 + 1)) : Nat) : Int) = .int a
  rw [h]

/-! ## Properties -/

/-- C1. Admin Login `handleSubmit`: for every entered pair, the handler
navigates to "/AdminDashboard" if and only if the email is exactly
"admin@example.com" and the password is exactly "admin123"; for every other
pair it raises exactly one alert, "Invalid credentials!", and does not
navigate (and on a match it raises no alert); in both cases it issues no
request and leaves the email and password state as they were. -/
theorem AdminLogin.handleSubmit_contract (s : AdminLogin.State) :
    (Effect.navigate "/AdminDashboard" ∈ (AdminLogin.handleSubmit s).2 ↔
        s.email = "admin@example.com" ∧ s.password = "admin123") ∧
      navigationsOf (AdminLogin.handleSubmit s).2 =
        (if s.email = "admin@example.com" ∧ s.password = "admin123" then
          ["/AdminDashboard"] else []) ∧
      alertsOf (AdminLogin.handleSubmit s).2 =
        (if s.email = "admin@example.com" ∧ s.password = "admin123" then
          [] else ["Invalid credentials!"]) ∧
      requestsOf (AdminLogin.handleSubmit s).2 = [] ∧
      (AdminLogin.handleSubmit s).1 = s := by
  by_cases h : s.email = "admin@example.com" ∧ s.password = "admin123"
  · simp [AdminLogin.handleSubmit, h, navigationsOf, alertsOf, requestsOf]
  · simp [AdminLogin.handleSubmit, h, navigationsOf, alertsOf, requestsOf]

/-- C2. URL-Based screen `handleFetchVideo`: for every non-empty `searchQuery`
and every way the request settles, exactly one request is issued, a GET to
the backend URL followed by "/preview" with parameter `url` equal to
`searchQuery`; a response with status 200 and a truthy body makes `video`
that body; any other status, a falsy (absent) body or a rejection sets
`error` to "Error fetching video info. Ensure the URL is correct." and leaves
`video` as before the call; `loading` is true while the request is pending
and false when the handler has settled. -/
theorem DownloadByUrl.handleFetchVideo_contract (backendUrl : JsPrim)
    (s : DownloadByUrl.State) (o : Settle) (hq : s.searchQuery ≠ "") :
    requestsOf (DownloadByUrl.handleFetchVideo backendUrl s o).effects =
        [{ method := "GET", url := backendUrl.toStr ++ "/preview",
           params := [("url", .prim (.str s.searchQuery))], responseType := "json" }] ∧
      (∀ data, o = .resolved 200 data → data.truthy = true →
        (DownloadByUrl.handleFetchVideo backendUrl s o).final.video = data) ∧
      ((o = .rejected ∨ ∃ status data, o = .resolved status data ∧
            (status ≠ 200 ∨ data.truthy = false)) →
        (DownloadByUrl.handleFetchVideo backendUrl s o).final.error =
            "Error fetching video info. Ensure the URL is correct." ∧
          (DownloadByUrl.handleFetchVideo backendUrl s o).final.video = s.video) ∧
      (∃ p, (DownloadByUrl.handleFetchVideo backendUrl s o).pending = some p ∧
        p.loading = true) ∧
      (DownloadByUrl.handleFetchVideo backendUrl s o).final.loading = false := by
  refine ⟨?_, ?_, ?_, ?_, ?_⟩
  · cases o with
    | rejected =>
      simp [DownloadByUrl.handleFetchVideo, hq, requestsOf, DownloadByUrl.previewRequest]
    | resolved status data =>
      by_cases h : status ≠ 200 ∨ data.truthy = false
      · simp [DownloadByUrl.handleFetchVideo, hq, requestsOf, DownloadByUrl.previewRequest, h]
      · simp [DownloadByUrl.handleFetchVideo, hq, requestsOf, DownloadByUrl.previewRequest, h]
  · intro data ho ht
    subst ho
    simp [DownloadByUrl.handleFetchVideo, hq, ht]
  · rintro (ho | ⟨status, data, ho, hf⟩)
    · subst ho
      simp [DownloadByUrl.handleFetchVideo, hq]
    · subst ho
      simp [DownloadByUrl.handleFetchVideo, hq, hf]
  · exact ⟨{ s with loading := true, error := "", progress := .int 0 },
      by simp [DownloadByUrl.handleFetchVideo, hq], rfl⟩
  · simp [DownloadByUrl.handleFetchVideo, hq]

/-- Witness for C2: the query "https://youtu.be/abc123" and a status-200
response carrying a preview object. -/
theorem DownloadByUrl.handleFetchVideo_contract_witness :
    (DownloadByUrl.handleFetchVideo (.str "http://localhost:5000")
        { DownloadByUrl.State.init with searchQuery := "https://youtu.be/abc123" }
        (.resolved 200 (.obj [("videoId", .str "abc123"), ("title", .str "Test Video"),
          ("thumbnail", .str "http://x/y.jpg")]))).final.video =
      .obj [("videoId", .str "abc123"), ("title", .str "Test Video"),
        ("thumbnail", .str "http://x/y.jpg")] :=
  (DownloadByUrl.handleFetchVideo_contract (.str "http://localhost:5000")
    { DownloadByUrl.State.init with searchQuery := "https://youtu.be/abc123" }
    (.resolved 200 (.obj [("videoId", .str "abc123"), ("title", .str "Test Video"),
      ("thumbnail", .str "http://x/y.jpg")])) (by decide)).2.1 _ rfl (by decide)

/-- C3, as stated, fails: a non-empty query whose search is answered with
status 203 and a one-element list.  The handler replaces `videos` with the
body and clears `error`, although the status is other than 200. -/
theorem DownloadPage.handleSearch_status_203 :
    (DownloadPage.handleSearch (.str "http://localhost:5000")
        { DownloadPage.State.init with query := "cats" }
        (axiosSettle (.response 203 (.arr [[("videoId", .str "abc123")]])))).final.error ≠
        "Failed to fetch videos. Try again!" ∧
      (DownloadPage.handleSearch (.str "http://localhost:5000")
        { DownloadPage.State.init with query := "cats" }
        (axiosSettle (.response 203 (.arr [[("videoId", .str "abc123")]])))).final.videos ≠
        (DownloadPage.State.init).videos := by
  decide

/-- C3, amended. Search-Based screen `handleSearch`: for every non-empty
query, when the request is rejected by the HTTP client (a transport error or a
response whose status is outside 200 to 299) `error` is set to "Failed to
fetch videos. Try again!" and `videos` keeps its value from before the call;
every response with a status from 200 to 299 replaces `videos` wholesale with
the response body and clears `error`. -/
theorem DownloadPage.handleSearch_contract (backendUrl : JsPrim)
    (s : DownloadPage.State) (h : HttpOutcome) (hq : s.query ≠ "") :
    ((h = .networkError ∨ ∃ status data, h = .response status data ∧
          ¬ (200 ≤ status ∧ status < 300)) →
        (DownloadPage.handleSearch backendUrl s (axiosSettle h)).final.error =
            "Failed to fetch videos. Try again!" ∧
          (DownloadPage.handleSearch backendUrl s (axiosSettle h)).final.videos = s.videos) ∧
      (∀ status data, h = .response status data → 200 ≤ status → status < 300 →
        (DownloadPage.handleSearch backendUrl s (axiosSettle h)).final.videos = data ∧
          (DownloadPage.handleSearch backendUrl s (axiosSettle h)).final.error = "") := by
  constructor
  · rintro (hn | ⟨status, data, hr, hs⟩)
    · subst hn
      simp [DownloadPage.handleSearch, axiosSettle, hq]
    · subst hr
      simp only [axiosSettle, if_neg hs]
      simp [DownloadPage.handleSearch, hq]
  · intro status data hr h1 h2
    subst hr
    simp only [axiosSettle, if_pos (And.intro h1 h2)]
    simp [DownloadPage.handleSearch, hq]

/-- Witness for C3, amended: the query "cats" and a transport failure. -/
theorem DownloadPage.handleSearch_contract_witness :
    (DownloadPage.handleSearch (.str "http://localhost:5000")
        { DownloadPage.State.init with query := "cats" }
        (axiosSettle .networkError)).final.error = "Failed to fetch videos. Try again!" ∧
      (DownloadPage.handleSearch (.str "http://localhost:5000")
        { DownloadPage.State.init with query := "cats" }
        (axiosSettle .networkError)).final.videos = .arr [] :=
  (DownloadPage.handleSearch_contract (.str "http://localhost:5000")
    { DownloadPage.State.init with query := "cats" } .networkError (by decide)).1
    (Or.inl rfl)

/-- C4. Download request parameters: for every result card and every
`selectedFormat`, the Search-Based screen's `handleDownload` issues exactly
one request, whose parameters are exactly `videoId` = the card's `videoId`,
`format` = the current `selectedFormat` and `quality` = "720p"; for every
non-empty `videoId` and every value of the second (format) argument, the
URL-Based screen's `handleDownload` issues exactly one request, whose
parameters are exactly that `videoId` and `format` = the current
`selectedFormat`, with no `quality` parameter. -/
theorem handleDownload_request_params (backendUrl : JsPrim) (events : List ProgressEvent)
    (o : Settle) :
    (∀ (s : DownloadPage.State) (video : JsObject),
      ∃ r, requestsOf (DownloadPage.handleDownload backendUrl s video events o).effects = [r] ∧
        r.params =
          [("videoId", .prim (video.get "videoId")),
           ("format", .prim (.str s.selectedFormat)),
           ("quality", .prim (.str "720p"))]) ∧
      (∀ (s : DownloadByUrl.State) (videoId format : JsPrim), videoId.truthy = true →
        ∃ r, requestsOf
            (DownloadByUrl.handleDownload backendUrl s videoId format events o).effects = [r] ∧
          r.params = [("videoId", .prim videoId), ("format", .prim (.str s.selectedFormat))] ∧
          r.params.lookup "quality" = none) := by
  constructor
  · intro s video
    refine ⟨DownloadPage.downloadRequest backendUrl video s.selectedFormat, ?_, rfl⟩
    cases o <;> simp [DownloadPage.handleDownload, requestsOf]
  · intro s videoId format hv
    refine ⟨DownloadByUrl.downloadRequest backendUrl videoId s.selectedFormat, ?_, rfl, ?_⟩
    · cases o with
      | rejected => simp [DownloadByUrl.handleDownload, hv, requestsOf]
      | resolved status data =>
        by_cases h1 : status = 200 <;> by_cases h2 : data.truthy = false <;>
          simp [DownloadByUrl.handleDownload, hv, requestsOf, h1, h2]
    · simp [DownloadByUrl.downloadRequest, List.lookup]

/-- C5. Saved file of a successful download: for every response with status
200 and a byte body `b`, the Search-Based screen's `handleDownload` triggers
exactly one save, with content `b` and file name the card's title `t`
followed by "." and the selected format; the URL-Based screen's
`handleDownload` (called with a non-empty identifier) triggers exactly one
save with content `b`, named `t` followed by "." and the selected format when
the current video has the non-empty title `t`, and "video" followed by "." and
the selected format when the current video has no title (absent or empty);
there the object URL is revoked after the click that triggers the save. -/
theorem handleDownload_saved_file (backendUrl : JsPrim) (events : List ProgressEvent)
    (b : List Nat) :
    (∀ (s : DownloadPage.State) (video : JsObject) (t : String),
      video.get "title" = .str t →
      savesOf (DownloadPage.handleDownload backendUrl s video events
          (.resolved 200 (.blob b))).effects = [(b, t ++ "." ++ s.selectedFormat)]) ∧
      (∀ (s : DownloadByUrl.State) (videoId format : JsPrim), videoId.truthy = true →
        (∀ t : String, s.video.get "title" = .str t → t ≠ "" →
          savesOf (DownloadByUrl.handleDownload backendUrl s videoId format events
              (.resolved 200 (.blob b))).effects = [(b, t ++ "." ++ s.selectedFormat)]) ∧
        ((s.video.get "title").truthy = false →
          savesOf (DownloadByUrl.handleDownload backendUrl s videoId format events
              (.resolved 200 (.blob b))).effects = [(b, "video" ++ "." ++ s.selectedFormat)]) ∧
        ∃ name,
          (DownloadByUrl.handleDownload backendUrl s videoId format events
              (.resolved 200 (.blob b))).effects =
            [.request (DownloadByUrl.downloadRequest backendUrl videoId s.selectedFormat),
             .createObjectURL b, .appendChild, .click b name, .remove,
             .revokeObjectURL b]) := by
  constructor
  · intro s video t ht
    simp [DownloadPage.handleDownload, savesOf, DownloadPage.downloadName, ht,
      JsValue.blobBytes, JsPrim.toStr]
  · intro s videoId format hv
    refine ⟨?_, ?_, ?_⟩
    · intro t ht hne
      have htt : (JsPrim.str t).truthy = true := (JsPrim.truthy_str t).mpr hne
      simp [DownloadByUrl.handleDownload, hv, savesOf, DownloadByUrl.downloadName, ht, htt,
        JsValue.blobBytes, JsPrim.toStr, JsValue.truthy]
    · intro ht
      simp [DownloadByUrl.handleDownload, hv, savesOf, DownloadByUrl.downloadName, ht,
        JsValue.blobBytes, JsValue.truthy]
    · exact ⟨DownloadByUrl.downloadName s.video s.selectedFormat, by
        simp [DownloadByUrl.handleDownload, hv, JsValue.blobBytes, JsValue.truthy]⟩

/-- Witness for C5: a 12-byte response for the video titled "My Clip" with the
format "mp4", on the Search-Based screen. -/
theorem handleDownload_saved_file_witness :
    savesOf (DownloadPage.handleDownload (.str "http://localhost:5000")
        DownloadPage.State.init [("videoId", .str "abc123"), ("title", .str "My Clip")] []
        (.resolved 200 (.blob [1, 2, 3, 4, 5, 6, 7, 8, 9, 10, 11, 12]))).effects =
      [([1, 2, 3, 4, 5, 6, 7, 8, 9, 10, 11, 12], "My Clip.mp4")] :=
  (handleDownload_saved_file (.str "http://localhost:5000") []
    [1, 2, 3, 4, 5, 6, 7, 8, 9, 10, 11, 12]).1 DownloadPage.State.init
    [("videoId", .str "abc123"), ("title", .str "My Clip")] "My Clip" (by decide)

/-- Witness for C4: the identifier "abc123" on the URL-Based screen, with the
format argument left out by the caller. -/
theorem handleDownload_request_params_witness :
    ∃ r, requestsOf (DownloadByUrl.handleDownload (.str "http://localhost:5000")
        DownloadByUrl.State.init (.str "abc123") .undefined [] .rejected).effects = [r] ∧
      r.params = [("videoId", .prim (.str "abc123")), ("format", .prim (.str "mp4"))] ∧
      r.params.lookup "quality" = none :=
  (handleDownload_request_params (.str "http://localhost:5000") [] .rejected).2
    DownloadByUrl.State.init (.str "abc123") .undefined (by decide)

/-- C6, as stated, fails: on the Search-Based screen a Download on a card whose
`videoId` is the empty string, answered with status 200.  The handler issues
the request all the same and sets no error message. -/
theorem DownloadPage.handleDownload_empty_videoId :
    requestsOf (DownloadPage.handleDownload (.str "http://localhost:5000")
        DownloadPage.State.init [("videoId", .str ""), ("title", .str "My Clip")] []
        (.resolved 200 (.blob [1, 2, 3]))).effects ≠ [] ∧
      (DownloadPage.handleDownload (.str "http://localhost:5000")
        DownloadPage.State.init [("videoId", .str ""), ("title", .str "My Clip")] []
        (.resolved 200 (.blob [1, 2, 3]))).final.error = "" := by
  decide

/-- C6, amended. InvalidIdentifier: on the URL-Based screen, for every
Download attempt whose video identifier is missing or empty (falsy), the
handler returns before any request (it has no effect at all and schedules no
timer) and sets `error` to exactly "Invalid video ID.", every other state
field unchanged.  The Search-Based screen has no such check: for every card,
whatever its identifier, its handler issues the download request, and it sets
an error message only when that request is rejected. -/
theorem handleDownload_invalid_identifier (backendUrl : JsPrim)
    (events : List ProgressEvent) (o : Settle) :
    (∀ (s : DownloadByUrl.State) (videoId format : JsPrim), videoId.truthy = false →
      (DownloadByUrl.handleDownload backendUrl s videoId format events o).effects = [] ∧
        (DownloadByUrl.handleDownload backendUrl s videoId format events o).pending = none ∧
        (DownloadByUrl.handleDownload backendUrl s videoId format events o).timers.length = 0 ∧
        (DownloadByUrl.handleDownload backendUrl s videoId format events o).final =
          { s with error := "Invalid video ID." }) ∧
      (∀ (s : DownloadPage.State) (video : JsObject),
        requestsOf (DownloadPage.handleDownload backendUrl s video events o).effects =
            [DownloadPage.downloadRequest backendUrl video s.selectedFormat] ∧
          ((DownloadPage.handleDownload backendUrl s video events o).final.error =
              (if o = .rejected then "Failed to download video." else s.error))) := by
  constructor
  · intro s videoId format hv
    simp [DownloadByUrl.handleDownload, hv]
  · intro s video
    have hfold : ∀ (l : List ProgressEvent) (st : DownloadPage.State),
        (l.foldl (fun st e => { st with progress := DownloadPage.onDownloadProgress e })
          st).error = st.error := by
      intro l
      induction l with
      | nil => intro st; rfl
      | cons e l ih => intro st; simp [List.foldl, ih]
    cases o with
    | rejected => simp [DownloadPage.handleDownload, requestsOf]
    | resolved status data => simp [DownloadPage.handleDownload, requestsOf, hfold]

/-- Witness for C6, amended: a Download on the URL-Based screen with the
identifier `undefined` and with the empty string. -/
theorem handleDownload_invalid_identifier_witness :
    (DownloadByUrl.handleDownload (.str "http://localhost:5000") DownloadByUrl.State.init
        .undefined .undefined [] .rejected).effects = [] ∧
      (DownloadByUrl.handleDownload (.str "http://localhost:5000") DownloadByUrl.State.init
        (.str "") .undefined [] .rejected).final.error = "Invalid video ID." :=
  ⟨((handleDownload_invalid_identifier (.str "http://localhost:5000") [] .rejected).1
      DownloadByUrl.State.init .undefined .undefined (by decide)).1,
    by
      rw [((handleDownload_invalid_identifier (.str "http://localhost:5000") [] .rejected).1
        DownloadByUrl.State.init (.str "") .undefined (by decide)).2.2.2]⟩

/-- C7. MissingInput: Fetch Preview on the URL-Based screen with an empty
`searchQuery`, and Search on the Search-Based screen with an empty `query`,
issue no request, raise exactly one alert ("Please enter a YouTube URL!" and
"Please enter a search term!" respectively) and nothing else, schedule no
timer, and leave every state field of the screen unchanged. -/
theorem missing_input (backendUrl : JsPrim) (o : Settle) :
    (∀ s : DownloadByUrl.State, s.searchQuery = "" →
      (DownloadByUrl.handleFetchVideo backendUrl s o).effects =
          [.alert "Please enter a YouTube URL!"] ∧
        requestsOf (DownloadByUrl.handleFetchVideo backendUrl s o).effects = [] ∧
        (DownloadByUrl.handleFetchVideo backendUrl s o).pending = none ∧
        (DownloadByUrl.handleFetchVideo backendUrl s o).timers.length = 0 ∧
        (DownloadByUrl.handleFetchVideo backendUrl s o).final = s) ∧
      (∀ s : DownloadPage.State, s.query = "" →
        (DownloadPage.handleSearch backendUrl s o).effects =
            [.alert "Please enter a search term!"] ∧
          requestsOf (DownloadPage.handleSearch backendUrl s o).effects = [] ∧
          (DownloadPage.handleSearch backendUrl s o).pending = none ∧
          (DownloadPage.handleSearch backendUrl s o).timers.length = 0 ∧
          (DownloadPage.handleSearch backendUrl s o).final = s) := by
  constructor
  · intro s hs
    simp [DownloadByUrl.handleFetchVideo, hs, requestsOf]
  · intro s hs
    simp [DownloadPage.handleSearch, hs, requestsOf]

/-- Witness for C7: both screens in their state on mount, where the input is
empty. -/
theorem missing_input_witness :
    (DownloadByUrl.handleFetchVideo (.str "http://localhost:5000") DownloadByUrl.State.init
        .rejected).effects = [.alert "Please enter a YouTube URL!"] ∧
      (DownloadPage.handleSearch (.str "http://localhost:5000") DownloadPage.State.init
        .rejected).effects = [.alert "Please enter a search term!"] :=
  ⟨((missing_input (.str "http://localhost:5000") .rejected).1
      DownloadByUrl.State.init (by decide)).1,
    ((missing_input (.str "http://localhost:5000") .rejected).2
      DownloadPage.State.init (by decide)).1⟩

/-- C8. Terminal state of a download: for every download request and every
way it settles, the handler schedules exactly one delayed callback, with delay
1000 ms on the URL-Based screen and 500 ms on the Search-Based screen; after
that callback has run (on whatever state it finds) `loading` is false and
`progress` is 0 on the URL-Based screen and 100 on the Search-Based screen. -/
theorem handleDownload_terminal_state (backendUrl : JsPrim) (events : List ProgressEvent)
    (o : Settle) :
    (∀ (s : DownloadByUrl.State) (videoId format : JsPrim), videoId.truthy = true →
      ∃ reset,
        (DownloadByUrl.handleDownload backendUrl s videoId format events o).timers =
            [(1000, reset)] ∧
          ∀ st, (reset st).loading = false ∧ (reset st).progress = .int 0) ∧
      (∀ (s : DownloadPage.State) (video : JsObject),
        ∃ reset,
          (DownloadPage.handleDownload backendUrl s video events o).timers =
              [(500, reset)] ∧
            ∀ st, (reset st).loading = false ∧ (reset st).progress = .int 100) := by
  constructor
  · intro s videoId format hv
    refine ⟨DownloadByUrl.downloadReset, ?_, fun st => ⟨rfl, rfl⟩⟩
    simp [DownloadByUrl.handleDownload, hv]
  · intro s video
    exact ⟨DownloadPage.downloadReset, rfl, fun st => ⟨rfl, rfl⟩⟩

/-- Witness for C8: a rejected download of "abc123" on the URL-Based screen. -/
theorem handleDownload_terminal_state_witness :
    ∃ reset,
      (DownloadByUrl.handleDownload (.str "http://localhost:5000") DownloadByUrl.State.init
          (.str "abc123") .undefined [] .rejected).timers = [(1000, reset)] ∧
        ∀ st, (reset st).loading = false ∧ (reset st).progress = .int 0 :=
  (handleDownload_terminal_state (.str "http://localhost:5000") [] .rejected).1
    DownloadByUrl.State.init (.str "abc123") .undefined (by decide)

/-- C9, as stated, fails: on the URL-Based screen a progress event with 5 bytes
loaded and no total stores 500, which is neither between 0 and 100 nor -1. -/
theorem DownloadByUrl.onDownloadProgress_unknown_total :
    DownloadByUrl.onDownloadProgress { loaded := 5, total := none, lengthComputable := false } =
        .int 500 ∧
      ¬ ∃ n : Int,
        DownloadByUrl.onDownloadProgress
            { loaded := 5, total := none, lengthComputable := false } = .int n ∧
          ((0 ≤ n ∧ n ≤ 100) ∨ n = -1) := by
  refine ⟨by decide, ?_⟩
  rintro ⟨n, hn, hr⟩
  have h500 : DownloadByUrl.onDownloadProgress
      { loaded := 5, total := none, lengthComputable := false } = .int 500 := by decide
  rw [h500] at hn
  injection hn with hn
  omega

/-- C9, amended. Range of progress, for byte counts below `2 ^ 46` (where the
double arithmetic of the code is exact for these quotients): for every
progress event whose total is known and positive, with `loaded ≤ total`, the
value `onDownloadProgress` stores in `progress` is a whole number between 0
and 100 inclusive on both screens; when the total is unknown, the Search-Based
screen stores the sentinel -1 and the URL-Based screen stores `loaded * 100`. -/
theorem onDownloadProgress_range (e : ProgressEvent) :
    (∀ t, e.total = some t → 0 < t → e.loaded ≤ t → t < 2 ^ 46 →
      (∃ n : Int, DownloadByUrl.onDownloadProgress e = .int n ∧ 0 ≤ n ∧ n ≤ 100) ∧
        (e.lengthComputable = true →
          ∃ n : Int, DownloadPage.onDownloadProgress e = .int n ∧ 0 ≤ n ∧ n ≤ 100)) ∧
      (e.lengthComputable = false → DownloadPage.onDownloadProgress e = .int (-1)) ∧
      ((e.total = none ∨ e.total = some 0) → e.loaded < 2 ^ 46 →
        DownloadByUrl.onDownloadProgress e = .int ((e.loaded * 100 : Nat) : Int)) := by
  refine ⟨?_, ?_, ?_⟩
  · intro t ht hpos hle _
    obtain ⟨d, rfl⟩ : ∃ d, t = d + 1 := ⟨t - 1, by omega⟩
    constructor
    · simp only [DownloadByUrl.onDownloadProgress, ht]
      exact roundDiv_percent_le e.loaded d hle
    · intro hc
      simp only [DownloadPage.onDownloadProgress, hc, ht, if_true]
      exact roundDiv_percent_le e.loaded d hle
  · intro hc
    simp [DownloadPage.onDownloadProgress, hc]
  · rintro (ht | ht) _
    · simp only [DownloadByUrl.onDownloadProgress, ht]
      exact roundDiv_one _
    · simp only [DownloadByUrl.onDownloadProgress, ht]
      exact roundDiv_one _

/-- C10. Play modal: on either download screen, for every video identifier
`v`, activating Play sets `playingVideo` to `v` and `showPlayModal` to true
and nothing else, with no request (no effect at all), and the rendered embed
source is exactly "https://www.youtube.com/embed/" followed by `v`;
activating the close control sets `showPlayModal` to false and leaves
`playingVideo` and every other state field unchanged. -/
theorem play_modal (v : String) :
    (∀ s : DownloadByUrl.State, s.video.get "videoId" = .str v →
      (DownloadByUrl.playClick s).1 =
          { s with playingVideo := .str v, showPlayModal := true } ∧
        (DownloadByUrl.playClick s).2 = [] ∧
        DownloadByUrl.embedSrc (DownloadByUrl.playClick s).1 =
          some ("https://www.youtube.com/embed/" ++ v)) ∧
      (∀ (s : DownloadPage.State) (video : JsObject), video.get "videoId" = .str v →
        (DownloadPage.playClick s video).1 =
            { s with playingVideo := .str v, showPlayModal := true } ∧
          (DownloadPage.playClick s video).2 = [] ∧
          DownloadPage.embedSrc (DownloadPage.playClick s video).1 =
            some ("https://www.youtube.com/embed/" ++ v)) ∧
      (∀ s : DownloadByUrl.State,
        (DownloadByUrl.closeClick s).1 = { s with showPlayModal := false } ∧
          (DownloadByUrl.closeClick s).1.playingVideo = s.playingVideo ∧
          (DownloadByUrl.closeClick s).2 = []) ∧
      (∀ s : DownloadPage.State,
        (DownloadPage.closeClick s).1 = { s with showPlayModal := false } ∧
          (DownloadPage.closeClick s).1.playingVideo = s.playingVideo ∧
          (DownloadPage.closeClick s).2 = []) := by
  refine ⟨?_, ?_, ?_, ?_⟩
  · intro s hv
    simp [DownloadByUrl.playClick, DownloadByUrl.embedSrc, hv, JsPrim.toStr]
  · intro s video hv
    simp [DownloadPage.playClick, DownloadPage.embedSrc, hv, JsPrim.toStr]
  · intro s
    simp [DownloadByUrl.closeClick]
  · intro s
    simp [DownloadPage.closeClick]

/-- Witness for C10: Play on the Search-Based screen for the card with the
identifier "xyz789". -/
theorem play_modal_witness :
    DownloadPage.embedSrc
        (DownloadPage.playClick DownloadPage.State.init [("videoId", .str "xyz789")]).1 =
      some "https://www.youtube.com/embed/xyz789" :=
  ((play_modal "xyz789").2.1 DownloadPage.State.init [("videoId", .str "xyz789")]
    (by decide)).2.2

/-- Witness for C9, amended: 512 of 2048 bytes with a computable length, and
512 bytes of an unknown total. -/
theorem onDownloadProgress_range_witness :
    ((∃ n : Int, DownloadByUrl.onDownloadProgress
        { loaded := 512, total := some 2048, lengthComputable := true } = .int n ∧
        0 ≤ n ∧ n ≤ 100) ∧
      ∃ n : Int, DownloadPage.onDownloadProgress
        { loaded := 512, total := some 2048, lengthComputable := true } = .int n ∧
        0 ≤ n ∧ n ≤ 100) ∧
      DownloadByUrl.onDownloadProgress
        { loaded := 512, total := none, lengthComputable := false } = .int 51200 :=
  ⟨⟨((onDownloadProgress_range
        { loaded := 512, total := some 2048, lengthComputable := true }).1 2048 rfl
        (by norm_num) (by norm_num) (by norm_num)).1,
      ((onDownloadProgress_range
        { loaded := 512, total := some 2048, lengthComputable := true }).1 2048 rfl
        (by norm_num) (by norm_num) (by norm_num)).2 rfl⟩,
    (onDownloadProgress_range
      { loaded := 512, total := none, lengthComputable := false }).2.2 (Or.inl rfl)
      (by norm_num)⟩

end YoutubeFrontend
